import Mathlib

/-!
Verification of the ChEMBL natural-language-to-SQL agent of the
GenAI-Portfolio backend.

The HTTP route handlers (`chembl_run`, `chembl_edit`, `chembl_reexecute`)
are embedded from `src/backend/app/api/routes.py`.  The `LLMModel` methods
they call (`run_chembl_full`, `chembl_apply_edit`, `chembl_reexecute`,
`chembl_session_get` / `chembl_session_set`, `check_model_running`) live in
`app/services/llm_model.py`, which is not part of the provided sources;
those definitions are modelled from the specification (sections 4.2 - 4.5)
and are marked as such in their doc comments.

External collaborators (domain classification, schema retrieval, SQL
synthesis, SQL execution, the model/credential check) are an explicit
oracle record of pure functions; every collaborator call is counted so
that "the pipeline makes zero calls to X" is a provable statement.
-/

namespace ChemblAgent

/-- The persisted agent output (spec section 3).  The Python code passes a
dict with defaulting `get` accesses; following the spec's data model it is
a record with explicit defaults (`retries` defaults to 0, booleans to
false, strings to empty, lists to empty). -/
structure SessionState where
  prompt : String := ""
  sql : String := ""
  structured_tables : List String := []
  columns : List String := []
  rows : List (List String) := []
  retries : Nat := 0
  repaired : Bool := false
  no_context : Bool := false
  not_chembl : Bool := false
  chembl_reason : String := ""
  optimized_guidelines : String := ""
deriving DecidableEq, Repr

/-- Number of calls made to each class of external collaborator during one
operation. -/
structure Counts where
  classify : Nat := 0
  retrieve : Nat := 0
  synth : Nat := 0
  execute : Nat := 0
deriving DecidableEq, Repr

/-- Failure taxonomy of the caller-error and infrastructure conditions
(spec section 7).  `unknownSession` and `noStoredSql` are raised by the
reexecute route; `noBaseSql` by the edit flow; `collabFailure` carries a
propagated collaborator/transport failure message. -/
inductive AgentError where
  | unknownSession
  | noStoredSql
  | noBaseSql
  | collabFailure (msg : String)
deriving DecidableEq, Repr

/-- The external collaborators (spec section 6), as a deterministic oracle:
`classify` returns (in_scope, reason); `retrieve` returns candidate tables
(empty list = no context); `synth` produces the initial (sql, guidelines);
`resynth` repairs a failed sql given the prior sql and the execution error;
`synthEdit` produces (sql, guidelines) from a base sql and an edit
instruction; `execute` runs a sql with a row limit and returns
(columns, rows) or an execution-error message; `check_model_running` is
the credential/model availability check the routes perform first. -/
structure Collab where
  classify : String → Bool × String
  retrieve : String → List String
  synth : String → List String → String × String
  resynth : String → List String → String → String → String × String
  synthEdit : String → String → String × String
  execute : String → Nat → Except String (List String × List (List String))
  check_model_running : Except String Unit

/-- The Session Store (spec section 4.3): a keyed mapping from the opaque
session identifier to the most recent `SessionState`; `none` is absence. -/
def Store : Type := String → Option SessionState

/-- `get(id) -> SessionState | absent`. -/
def sessionGet (s : Store) (id : String) : Option SessionState := s id

/-- `set(id, state) -> void`, last-writer-wins. -/
def sessionSet (s : Store) (id : String) (st : SessionState) : Store :=
  fun j => if j = id then some st else s j

/-- The store with no sessions. -/
def emptyStore : Store := fun _ => none

/-- Python string truthiness on an optional string: `None` and `""` are
falsy, any other string is kept. -/
def truthy : Option String → Option String
  | some s => if s = "" then none else some s
  | none => none

/-- Python's `not s.strip()` test: a string strips to empty exactly when
every character is whitespace. -/
def isBlank (s : String) : Bool := s.data.all Char.isWhitespace

/-- Outcome of the execute-and-repair loop: final sql, guidelines, result
columns and rows, and the number of repair attempts consumed. -/
structure LoopResult where
  sql : String
  guide : String
  columns : List String
  rows : List (List String)
  retries : Nat
deriving DecidableEq, Repr

/-- Modelled from the spec (section 5): the fixed small maximum of repair
retries of the missing `llm_model.py`; the spec fixes only that it is a
small constant ("a handful"), not its value. -/
def maxRetries : Nat := 3

/-- One execution attempt: an empty or whitespace-only sql is treated as
an execution failure without calling the executor (spec section 4.2 edge
case); otherwise the executor is called (and counted). -/
def attempt (c : Collab) (sql : String) (limit : Nat) (k : Counts) :
    Except String (List String × List (List String)) × Counts :=
  if isBlank sql then (Except.error "empty SQL", k)
  else (c.execute sql limit, { k with execute := k.execute + 1 })

/-- Modelled from the spec: the execute-and-repair loop of section 4.2
step 4 of the missing `llm_model.py`.  On success it returns the results
with `retries` = attempts consumed; on failure with remaining budget it
resynthesizes (feeding back the prior sql and the error), increments the
attempt count and retries; on exhausted budget it returns the last sql
with empty results. -/
def repairLoop (c : Collab) (prompt : String) (ctx : List String)
    (limit : Nat) : Nat → String → String → Nat → Counts → LoopResult × Counts
  | 0, sql, guide, used, k =>
    match attempt c sql limit k with
    | (Except.ok cr, k') =>
      ({ sql := sql, guide := guide, columns := cr.1, rows := cr.2,
         retries := used }, k')
    | (Except.error _, k') =>
      ({ sql := sql, guide := guide, columns := [], rows := [],
         retries := used }, k')
  | r + 1, sql, guide, used, k =>
    match attempt c sql limit k with
    | (Except.ok cr, k') =>
      ({ sql := sql, guide := guide, columns := cr.1, rows := cr.2,
         retries := used }, k')
    | (Except.error msg, k') =>
      repairLoop c prompt ctx limit r
        (c.resynth prompt ctx sql msg).1 (c.resynth prompt ctx sql msg).2
        (used + 1) { k' with synth := k'.synth + 1 }

/-- Modelled from the spec: the synthesize-then-execute-and-repair tail
of `LLMModel.run_chembl_full` (section 4.2, stages 3-4), reached when the
gate passed and retrieval found context. -/
def runSynthExec (c : Collab) (prompt : String) (limit : Nat) :
    SessionState × Counts :=
  let out := repairLoop c prompt (c.retrieve prompt) limit maxRetries
    (c.synth prompt (c.retrieve prompt)).1
    (c.synth prompt (c.retrieve prompt)).2 0
    { classify := 1, retrieve := 1, synth := 1 }
  ({ sql := out.1.sql, structured_tables := c.retrieve prompt,
     columns := out.1.columns, rows := out.1.rows,
     retries := out.1.retries,
     repaired := decide (0 < out.1.retries),
     optimized_guidelines := out.1.guide }, out.2)

/-- Modelled from the spec: `LLMModel.run_chembl_full` (section 4.2) of the
missing `llm_model.py`.  Gate, then retrieval, then initial synthesis, then
the execute-and-repair loop; each stage can short-circuit the rest.
Returns the produced state together with the collaborator call counts. -/
def run_chembl_full (c : Collab) (prompt : String) (limit : Nat) :
    SessionState × Counts :=
  if (c.classify prompt).1 then
    if (c.retrieve prompt).isEmpty then
      ({ sql := "", no_context := true }, { classify := 1, retrieve := 1 })
    else
      runSynthExec c prompt limit
  else
    ({ sql := "", not_chembl := true,
       chembl_reason := (c.classify prompt).2 }, { classify := 1 })

/-- Modelled from the spec: the base-SQL resolution of section 4.4 inside
the missing `LLMModel.chembl_apply_edit`: prefer the session's stored sql
when `id` is known and it is non-empty; otherwise the caller-supplied
`prev_sql` (when non-empty); otherwise nothing. -/
def resolveBaseSql (store : Store) (id : String) (prevSql : Option String) :
    Option String :=
  match truthy ((sessionGet store id).map SessionState.sql) with
  | some s => some s
  | none => truthy prevSql

/-- Modelled from the spec: the row limit the missing
`LLMModel.chembl_apply_edit` uses for the repair loop of an edit (its
value is internal to the missing code; the run route uses 100). -/
def editLimit : Nat := 100

/-- The prompt of the prior session under `id`, empty when the session is
new. -/
def priorPrompt (store : Store) (id : String) : String :=
  match sessionGet store id with
  | some st => st.prompt
  | none => ""

/-- The retrieved tables of the prior session under `id`, empty when the
session is new. -/
def priorTables (store : Store) (id : String) : List String :=
  match sessionGet store id with
  | some st => st.structured_tables
  | none => []

/-- Modelled from the spec: the state an edit produces (section 4.4) —
edit-mode synthesis from the resolved base sql, then the shared
execute-and-repair loop; the prior session's prompt and tables (empty
when the session is new) are carried into the state and used as the
resynthesis context. -/
def editState (c : Collab) (store : Store) (id instruction base : String) :
    SessionState × Counts :=
  let sg := c.synthEdit base instruction
  let out := repairLoop c (priorPrompt store id) (priorTables store id)
    editLimit maxRetries sg.1 sg.2 0 { synth := 1 }
  ({ prompt := priorPrompt store id, sql := out.1.sql,
     structured_tables := priorTables store id,
     columns := out.1.columns, rows := out.1.rows,
     retries := out.1.retries,
     repaired := decide (0 < out.1.retries),
     optimized_guidelines := out.1.guide }, out.2)

/-- Modelled from the spec: `LLMModel.chembl_apply_edit` (section 4.4) of
the missing `llm_model.py`.  Resolves a base sql (failing with
`noBaseSql` when none is available), produces the edited state through
the shared repair loop, and on completion writes it into the store under
`id` (overwriting) and returns it. -/
def chembl_apply_edit (c : Collab) (store : Store) (id : String)
    (instruction : String) (prevSql : Option String) :
    Except AgentError (SessionState × Store) × Counts :=
  match resolveBaseSql store id prevSql with
  | none => (Except.error AgentError.noBaseSql, {})
  | some base =>
    let out := editState c store id instruction base
    (Except.ok (out.1, sessionSet store id out.1), out.2)

/-- Modelled from the spec: `LLMModel.chembl_reexecute` (section 4.5) of
the missing `llm_model.py`.  Re-runs only the Execute stage on the stored
sql with the new limit — no resynthesis, no repair loop, and no write to
the store; an execution failure is propagated. -/
def chembl_reexecute (c : Collab) (store : Store) (id : String)
    (limit : Nat) :
    Except AgentError (List String × List (List String)) × Counts :=
  match sessionGet store id with
  | none => (Except.error AgentError.unknownSession, {})
  | some st =>
    if isBlank st.sql then (Except.error AgentError.noStoredSql, {})
    else
      match c.execute st.sql limit with
      | Except.ok cr => (Except.ok cr, { execute := 1 })
      | Except.error m => (Except.error (AgentError.collabFailure m),
          { execute := 1 })

/-- Request body of the run endpoint.  The prompt and the optional
`memory_id` are read by the handler (routes.py lines 202-219); the
schema module is not among the sources, so a caller-supplied `limit`
field is included to express that the handler ignores it and always
passes the fixed literal 100. -/
structure RunRequest where
  prompt : String
  memory_id : Option String := none
  limit : Nat := 0
deriving DecidableEq, Repr

/-- The response dict built by `chembl_run` (routes.py lines 207-219). -/
structure RunResponse where
  sql : String
  related_tables : List String
  columns : List String
  rows : List (List String)
  retries : Nat
  repaired : Bool
  no_context : Bool
  not_chembl : Bool
  chembl_reason : String
  optimized_guidelines : String
  memory_id : Option String
deriving DecidableEq, Repr

/-- `chembl_run` (routes.py lines 194-233): runs the full pipeline with
the fixed literal `limit=100`, attaches the request prompt to the state,
persists the state under `memory_id` when that is present and non-empty
(Python truthiness of `payload.memory_id`), and builds the response with
`repaired` recomputed as `retries > 0` (line 213) and `memory_id` echoing
`payload.memory_id or None`. -/
def route_chembl_run (c : Collab) (store : Store) (req : RunRequest) :
    (RunResponse × Store) × Counts :=
  let out := run_chembl_full c req.prompt 100
  let state : SessionState := { out.1 with prompt := req.prompt }
  let store' : Store := match truthy req.memory_id with
    | some mid => sessionSet store mid state
    | none => store
  let resp : RunResponse :=
    { sql := state.sql, related_tables := state.structured_tables,
      columns := state.columns, rows := state.rows,
      retries := state.retries,
      repaired := decide (0 < state.retries),
      no_context := state.no_context, not_chembl := state.not_chembl,
      chembl_reason := state.chembl_reason,
      optimized_guidelines := state.optimized_guidelines,
      memory_id := truthy req.memory_id }
  ((resp, store'), out.2)

/-- Request body of the edit endpoint (routes.py lines 236-243). -/
structure EditRequest where
  memory_id : String
  instruction : String
  prev_sql : Option String := none
deriving DecidableEq, Repr

/-- `ChemblSqlEditResponse` as built by `chembl_edit`
(routes.py lines 250-261). -/
structure EditResponse where
  sql : String
  related_tables : List String
  columns : List String
  rows : List (List String)
  retries : Nat
  repaired : Bool
  no_context : Bool
  not_chembl : Bool
  chembl_reason : String
  optimized_guidelines : String
deriving DecidableEq, Repr

/-- `chembl_edit` (routes.py lines 236-264): first the model/credential
check, then `chembl_apply_edit`; any failure is propagated.  The response
copies the state's fields (`retries` via `int(... or 0)`, `repaired` via
`bool(... or False)`, both the identity on the record model). -/
def route_chembl_edit (c : Collab) (store : Store) (req : EditRequest) :
    Except AgentError (EditResponse × Store) × Counts :=
  match c.check_model_running with
  | Except.error m => (Except.error (AgentError.collabFailure m), {})
  | Except.ok _ =>
    match chembl_apply_edit c store req.memory_id req.instruction
        req.prev_sql with
    | (Except.error e, k) => (Except.error e, k)
    | (Except.ok (st, store'), k) =>
      (Except.ok
        ({ sql := st.sql, related_tables := st.structured_tables,
           columns := st.columns, rows := st.rows, retries := st.retries,
           repaired := st.repaired, no_context := st.no_context,
           not_chembl := st.not_chembl, chembl_reason := st.chembl_reason,
           optimized_guidelines := st.optimized_guidelines }, store'), k)

/-- Request body of the reexecute endpoint (routes.py lines 267-282). -/
structure ReexecRequest where
  memory_id : String
  limit : Nat
deriving DecidableEq, Repr

/-- `chembl_reexecute` route (routes.py lines 267-289): the
model/credential check, then the session lookup — absent raises
"Unknown memory_id" (lines 274-277); then `(prev.get("sql") or
"").strip()` — empty raises "No SQL present" (lines 278-281); otherwise
the stored sql is re-executed with the caller's limit (line 282).  The
handler never writes the store, so the store component of a success is
the input store itself. -/
def route_chembl_reexecute (c : Collab) (store : Store)
    (req : ReexecRequest) :
    Except AgentError ((List String × List (List String)) × Store) ×
      Counts :=
  match c.check_model_running with
  | Except.error m => (Except.error (AgentError.collabFailure m), {})
  | Except.ok _ =>
    match sessionGet store req.memory_id with
    | none => (Except.error AgentError.unknownSession, {})
    | some prev =>
      if isBlank prev.sql then
        (Except.error AgentError.noStoredSql, {})
      else
        match chembl_reexecute c store req.memory_id req.limit with
        | (Except.ok cr, k) => (Except.ok (cr, store), k)
        | (Except.error e, k) => (Except.error e, k)

/-- Two reexecute calls in immediate succession with no intervening edit:
the second call runs against the store left by the first; `none` when
either call fails.  Returns both results and the final store. -/
def reexecTwice (c : Collab) (store : Store) (req : ReexecRequest) :
    Option ((List String × List (List String)) ×
      (List String × List (List String)) × Store) :=
  match (route_chembl_reexecute c store req).1 with
  | Except.error _ => none
  | Except.ok (cr1, s1) =>
    match (route_chembl_reexecute c s1 req).1 with
    | Except.error _ => none
    | Except.ok (cr2, s2) => some (cr1, cr2, s2)

/-! Concrete collaborator oracles and sessions, used to evaluate the
development on closed inputs. -/

/-- An oracle whose calls all succeed on first try. -/
def cTest : Collab :=
  { classify := fun _ => (true, ""),
    retrieve := fun _ => ["molecule_dictionary"],
    synth := fun _ _ => ("SELECT A", "g0"),
    resynth := fun _ _ sql _ => (sql ++ "+", "g1"),
    synthEdit := fun base instruction => (base ++ ";" ++ instruction, "g2"),
    execute := fun _ _ => Except.ok (["a", "b"], [["1", "2"]]),
    check_model_running := Except.ok () }

/-- The test oracle with an out-of-scope classification. -/
def cGate : Collab :=
  { cTest with classify := fun _ => (false, "not about ChEMBL") }

/-- A stored session with a non-empty sql and cached results. -/
def stStored : SessionState :=
  { prompt := "p0", sql := "SELECT 0", structured_tables := ["t0"],
    columns := ["c0"], rows := [["r0"]] }

/-- A store holding `stStored` under the identifier "s1". -/
def storeOne : Store := sessionSet emptyStore "s1" stStored

/-- A stored session whose sql is empty, as produced by a run that found
no schema context. -/
def stNoSql : SessionState := { no_context := true }

/-- A store holding `stNoSql` under the identifier "s2". -/
def storeNoSql : Store := sessionSet emptyStore "s2" stNoSql

/-- The state produced by editing the base "SELECT 0" with instruction
"w" under the test oracle when the session is new. -/
def stEditW : SessionState :=
  { prompt := "", sql := "SELECT 0;w", structured_tables := [],
    columns := ["a", "b"], rows := [["1", "2"]], retries := 0,
    repaired := false, optimized_guidelines := "g2" }

/-- The state produced by editing the stored session "s1" of `storeOne`
with instruction "v" under the test oracle. -/
def stEditV : SessionState :=
  { prompt := "p0", sql := "SELECT 0;v", structured_tables := ["t0"],
    columns := ["a", "b"], rows := [["1", "2"]], retries := 0,
    repaired := false, optimized_guidelines := "g2" }

/-- The `chembl_edit` response corresponding to `stEditV`. -/
def respEditV : EditResponse :=
  { sql := "SELECT 0;v", related_tables := ["t0"], columns := ["a", "b"],
    rows := [["1", "2"]], retries := 0, repaired := false,
    no_context := false, not_chembl := false, chembl_reason := "",
    optimized_guidelines := "g2" }

/-- Call counts of a first-try-success edit: one synthesizer call, one
executor call. -/
def kEditOk : Counts := { synth := 1, execute := 1 }

/-! Helper lemmas. -/

theorem attempt_counts (c : Collab) (sql : String) (limit : Nat)
    (k : Counts) :
    (attempt c sql limit k).2.synth = k.synth ∧
    (attempt c sql limit k).2.classify = k.classify ∧
    (attempt c sql limit k).2.retrieve = k.retrieve := by
  unfold attempt
  split <;> exact ⟨rfl, rfl, rfl⟩

theorem repairLoop_retries_le (c : Collab) (prompt : String)
    (ctx : List String) (limit : Nat) :
    ∀ (r : Nat) (sql guide : String) (used : Nat) (k : Counts),
      (repairLoop c prompt ctx limit r sql guide used k).1.retries ≤
        used + r := by
  intro r
  induction r with
  | zero =>
    intro sql guide used k
    unfold repairLoop
    rcases h : attempt c sql limit k with ⟨res, k'⟩
    cases res <;> simp
  | succ n ih =>
    intro sql guide used k
    unfold repairLoop
    rcases h : attempt c sql limit k with ⟨res, k'⟩
    cases res with
    | ok cr => exact Nat.le_add_right used (n + 1)
    | error msg =>
      have hrec := ih (c.resynth prompt ctx sql msg).1
        (c.resynth prompt ctx sql msg).2 (used + 1)
        { k' with synth := k'.synth + 1 }
      have hgoal : (repairLoop c prompt ctx limit n
          (c.resynth prompt ctx sql msg).1 (c.resynth prompt ctx sql msg).2
          (used + 1) { k' with synth := k'.synth + 1 }).1.retries ≤
          used + (n + 1) := by omega
      exact hgoal

theorem repairLoop_synth_le (c : Collab) (prompt : String)
    (ctx : List String) (limit : Nat) :
    ∀ (r : Nat) (sql guide : String) (used : Nat) (k : Counts),
      (repairLoop c prompt ctx limit r sql guide used k).2.synth ≤
        k.synth + r := by
  intro r
  induction r with
  | zero =>
    intro sql guide used k
    have hk := (attempt_counts c sql limit k).1
    unfold repairLoop
    rcases h : attempt c sql limit k with ⟨res, k'⟩
    rw [h] at hk
    cases res with
    | ok cr =>
      have hk2 : k'.synth = k.synth := hk
      have hgoal : k'.synth ≤ k.synth + 0 := by omega
      exact hgoal
    | error msg =>
      have hk2 : k'.synth = k.synth := hk
      have hgoal : k'.synth ≤ k.synth + 0 := by omega
      exact hgoal
  | succ n ih =>
    intro sql guide used k
    have hk := (attempt_counts c sql limit k).1
    unfold repairLoop
    rcases h : attempt c sql limit k with ⟨res, k'⟩
    rw [h] at hk
    cases res with
    | ok cr =>
      have hk2 : k'.synth = k.synth := hk
      have hgoal : k'.synth ≤ k.synth + (n + 1) := by omega
      exact hgoal
    | error msg =>
      have hk2 : k'.synth = k.synth := hk
      have hrec := ih (c.resynth prompt ctx sql msg).1
        (c.resynth prompt ctx sql msg).2 (used + 1)
        { k' with synth := k'.synth + 1 }
      have hproj : ({ k' with synth := k'.synth + 1 } : Counts).synth =
        k'.synth + 1 := rfl
      have hgoal : (repairLoop c prompt ctx limit n
          (c.resynth prompt ctx sql msg).1 (c.resynth prompt ctx sql msg).2
          (used + 1) { k' with synth := k'.synth + 1 }).2.synth ≤
          k.synth + (n + 1) := by omega
      exact hgoal

theorem editState_repaired_eq (c : Collab) (store : Store)
    (id instruction base : String) :
    (editState c store id instruction base).1.repaired =
      decide (0 < (editState c store id instruction base).1.retries) := rfl

theorem editState_retries_le (c : Collab) (store : Store)
    (id instruction base : String) :
    (editState c store id instruction base).1.retries ≤ maxRetries := by
  have h := repairLoop_retries_le c (priorPrompt store id)
    (priorTables store id) editLimit maxRetries
    (c.synthEdit base instruction).1 (c.synthEdit base instruction).2 0
    { synth := 1 }
  show (repairLoop c (priorPrompt store id) (priorTables store id)
    editLimit maxRetries (c.synthEdit base instruction).1
    (c.synthEdit base instruction).2 0 { synth := 1 }).1.retries ≤ maxRetries
  omega

theorem editState_synth_le (c : Collab) (store : Store)
    (id instruction base : String) :
    (editState c store id instruction base).2.synth ≤ maxRetries + 1 := by
  have h := repairLoop_synth_le c (priorPrompt store id)
    (priorTables store id) editLimit maxRetries
    (c.synthEdit base instruction).1 (c.synthEdit base instruction).2 0
    { synth := 1 }
  have hs : ({ synth := 1 } : Counts).synth = 1 := rfl
  show (repairLoop c (priorPrompt store id) (priorTables store id)
    editLimit maxRetries (c.synthEdit base instruction).1
    (c.synthEdit base instruction).2 0 { synth := 1 }).2.synth ≤
    maxRetries + 1
  omega

theorem chembl_apply_edit_ok_shape (c : Collab) (store : Store)
    (id instruction : String) (prevSql : Option String)
    (st : SessionState) (store' : Store)
    (h : (chembl_apply_edit c store id instruction prevSql).1 =
      Except.ok (st, store')) :
    ∃ base, resolveBaseSql store id prevSql = some base ∧
      st = (editState c store id instruction base).1 ∧
      store' = sessionSet store id st := by
  unfold chembl_apply_edit at h
  cases hb : resolveBaseSql store id prevSql with
  | none =>
    rw [hb] at h
    exact Except.noConfusion h
  | some base =>
    rw [hb] at h
    have h' : Except.ok ((editState c store id instruction base).1,
        sessionSet store id (editState c store id instruction base).1) =
        Except.ok (st, store') := h
    simp only [Except.ok.injEq, Prod.mk.injEq] at h'
    obtain ⟨h1, h2⟩ := h'
    refine ⟨base, rfl, h1.symm, ?_⟩
    rw [← h1]
    exact h2.symm

theorem route_chembl_edit_ok_shape (c : Collab) (store : Store)
    (req : EditRequest) (resp : EditResponse) (store' : Store) (k : Counts)
    (h : route_chembl_edit c store req = (Except.ok (resp, store'), k)) :
    ∃ st : SessionState,
      (chembl_apply_edit c store req.memory_id req.instruction
        req.prev_sql).1 = Except.ok (st, store') ∧
      resp.retries = st.retries ∧ resp.repaired = st.repaired ∧
      resp.sql = st.sql := by
  unfold route_chembl_edit at h
  cases hc : c.check_model_running with
  | error m =>
    rw [hc] at h
    exact Except.noConfusion (congrArg Prod.fst h)
  | ok u =>
    rw [hc] at h
    rcases ha : chembl_apply_edit c store req.memory_id req.instruction
      req.prev_sql with ⟨res, k2⟩
    rw [ha] at h
    cases res with
    | error e =>
      exact Except.noConfusion (congrArg Prod.fst h)
    | ok p =>
      rcases p with ⟨st, s2⟩
      have h1 := congrArg Prod.fst h
      have h2 := congrArg Prod.snd h
      simp only [Except.ok.injEq, Prod.mk.injEq] at h1
      obtain ⟨hresp, hstore⟩ := h1
      refine ⟨st, ?_, ?_, ?_, ?_⟩
      · rw [← hstore]
      · rw [← hresp]
      · rw [← hresp]
      · rw [← hresp]

theorem sessionGet_sessionSet_self (s : Store) (id : String)
    (st : SessionState) : sessionGet (sessionSet s id st) id = some st := by
  unfold sessionGet sessionSet
  simp

theorem sessionGet_sessionSet_other (s : Store) (id j : String)
    (st : SessionState) (h : ¬ j = id) :
    sessionGet (sessionSet s id st) j = s j := by
  unfold sessionGet sessionSet
  simp [h]

theorem runSynthExec_retries_le (c : Collab) (prompt : String)
    (limit : Nat) :
    (runSynthExec c prompt limit).1.retries ≤ maxRetries := by
  have h := repairLoop_retries_le c prompt (c.retrieve prompt) limit
    maxRetries (c.synth prompt (c.retrieve prompt)).1
    (c.synth prompt (c.retrieve prompt)).2 0
    { classify := 1, retrieve := 1, synth := 1 }
  show (repairLoop c prompt (c.retrieve prompt) limit maxRetries
    (c.synth prompt (c.retrieve prompt)).1
    (c.synth prompt (c.retrieve prompt)).2 0
    { classify := 1, retrieve := 1, synth := 1 }).1.retries ≤ maxRetries
  omega

theorem runSynthExec_synth_le (c : Collab) (prompt : String)
    (limit : Nat) :
    (runSynthExec c prompt limit).2.synth ≤ maxRetries + 1 := by
  have h := repairLoop_synth_le c prompt (c.retrieve prompt) limit
    maxRetries (c.synth prompt (c.retrieve prompt)).1
    (c.synth prompt (c.retrieve prompt)).2 0
    { classify := 1, retrieve := 1, synth := 1 }
  have hs : ({ classify := 1, retrieve := 1, synth := 1 } : Counts).synth =
    1 := rfl
  show (repairLoop c prompt (c.retrieve prompt) limit maxRetries
    (c.synth prompt (c.retrieve prompt)).1
    (c.synth prompt (c.retrieve prompt)).2 0
    { classify := 1, retrieve := 1, synth := 1 }).2.synth ≤ maxRetries + 1
  omega

theorem run_chembl_full_retries_le (c : Collab) (prompt : String)
    (limit : Nat) :
    (run_chembl_full c prompt limit).1.retries ≤ maxRetries := by
  unfold run_chembl_full
  cases hcls : (c.classify prompt).1 with
  | false => simp [hcls]
  | true =>
    cases hemp : (c.retrieve prompt).isEmpty with
    | true => simp [hcls, hemp]
    | false => simpa [hcls, hemp] using runSynthExec_retries_le c prompt limit

theorem run_chembl_full_synth_le (c : Collab) (prompt : String)
    (limit : Nat) :
    (run_chembl_full c prompt limit).2.synth ≤ maxRetries + 1 := by
  unfold run_chembl_full
  cases hcls : (c.classify prompt).1 with
  | false => simp [hcls]
  | true =>
    cases hemp : (c.retrieve prompt).isEmpty with
    | true => simp [hcls, hemp]
    | false => simpa [hcls, hemp] using runSynthExec_synth_le c prompt limit

theorem route_reexec_ok (c : Collab) (store : Store) (req : ReexecRequest)
    (st : SessionState) (cr : List String × List (List String))
    (hc : c.check_model_running = Except.ok ())
    (h1 : sessionGet store req.memory_id = some st)
    (h2 : isBlank st.sql = false)
    (hx : c.execute st.sql req.limit = Except.ok cr) :
    route_chembl_reexecute c store req =
      (Except.ok (cr, store), { execute := 1 }) := by
  unfold route_chembl_reexecute chembl_reexecute
  simp [hc, h1, h2, hx]

/-! The claims. -/

/-- C1: for every collaborator oracle and all inputs, `run_chembl_full`
and `chembl_apply_edit` consume at most a fixed maximum number of
synthesis attempts (the initial synthesis plus at most `maxRetries`
repairs), and the `retries` field of any returned state never exceeds
`maxRetries`.  Termination itself is inherent: both operations are total
functions, the repair loop recursing on a strictly decreasing budget. -/
theorem chembl_retries_bounded (c : Collab) (prompt : String) (limit : Nat)
    (store : Store) (id instruction : String) (prevSql : Option String) :
    (run_chembl_full c prompt limit).1.retries ≤ maxRetries ∧
    (run_chembl_full c prompt limit).2.synth ≤ maxRetries + 1 ∧
    (∀ st store', (chembl_apply_edit c store id instruction prevSql).1 =
      Except.ok (st, store') → st.retries ≤ maxRetries) ∧
    (chembl_apply_edit c store id instruction prevSql).2.synth ≤
      maxRetries + 1 := by
  refine ⟨run_chembl_full_retries_le c prompt limit,
    run_chembl_full_synth_le c prompt limit, ?_, ?_⟩
  · intro st store' h
    obtain ⟨base, hb, hst, _⟩ := chembl_apply_edit_ok_shape c store id
      instruction prevSql st store' h
    rw [hst]
    exact editState_retries_le c store id instruction base
  · unfold chembl_apply_edit
    cases hb : resolveBaseSql store id prevSql with
    | none => simp
    | some base => exact editState_synth_le c store id instruction base

/-- Witness for C1: a concrete successful edit, with the bound
instantiated on its returned state. -/
theorem chembl_retries_bounded_witness :
    (chembl_apply_edit cTest emptyStore "s1" "w" (some "SELECT 0")).1 =
      Except.ok (stEditW, sessionSet emptyStore "s1" stEditW) ∧
    stEditW.retries ≤ maxRetries :=
  ⟨rfl,
    (chembl_retries_bounded cTest "p" 5 emptyStore "s1" "w"
      (some "SELECT 0")).2.2.1 stEditW
      (sessionSet emptyStore "s1" stEditW) rfl⟩

/-- C2: for every prompt the Domain Gate classifies out of scope,
`run_chembl_full` returns `not_chembl = true`, an empty sql and
`retries = 0`, and makes zero calls to the retrieval, synthesis and
execution collaborators. -/
theorem chembl_gate_short_circuit (c : Collab) (prompt : String)
    (limit : Nat) (h : (c.classify prompt).1 = false) :
    (run_chembl_full c prompt limit).1.not_chembl = true ∧
    (run_chembl_full c prompt limit).1.sql = "" ∧
    (run_chembl_full c prompt limit).1.retries = 0 ∧
    (run_chembl_full c prompt limit).2.retrieve = 0 ∧
    (run_chembl_full c prompt limit).2.synth = 0 ∧
    (run_chembl_full c prompt limit).2.execute = 0 := by
  unfold run_chembl_full
  simp [h]

/-- Witness for C2: a concrete out-of-scope classification. -/
theorem chembl_gate_short_circuit_witness :
    (cGate.classify "weather in Paris").1 = false ∧
    (run_chembl_full cGate "weather in Paris" 100).1.not_chembl = true :=
  ⟨rfl, (chembl_gate_short_circuit cGate "weather in Paris" 100 rfl).1⟩

/-- C3: in every state returned to the caller, `repaired` holds exactly
when `retries > 0`: the run route recomputes it that way
(routes.py line 213), and every successful edit response satisfies the
same equivalence. -/
theorem chembl_repaired_iff_retries (c : Collab) (store : Store)
    (req : RunRequest) (ereq : EditRequest) :
    ((route_chembl_run c store req).1.1.repaired = true ↔
      0 < (route_chembl_run c store req).1.1.retries) ∧
    ∀ resp store' k,
      route_chembl_edit c store ereq = (Except.ok (resp, store'), k) →
      (resp.repaired = true ↔ 0 < resp.retries) := by
  constructor
  · simp [route_chembl_run]
  · intro resp store' k h
    obtain ⟨st, hok, hret, hrep, _⟩ :=
      route_chembl_edit_ok_shape c store ereq resp store' k h
    obtain ⟨base, hb, hst, _⟩ := chembl_apply_edit_ok_shape c store
      ereq.memory_id ereq.instruction ereq.prev_sql st store' hok
    rw [hrep, hret, hst, editState_repaired_eq]
    simp

/-- Witness for C3: a concrete successful edit through the route, with
the equivalence instantiated on its response. -/
theorem chembl_repaired_iff_retries_witness :
    route_chembl_edit cTest storeOne
      { memory_id := "s1", instruction := "v", prev_sql := none } =
      (Except.ok (respEditV, sessionSet storeOne "s1" stEditV), kEditOk) ∧
    (respEditV.repaired = true ↔ 0 < respEditV.retries) :=
  ⟨rfl,
    (chembl_repaired_iff_retries cTest storeOne
      { prompt := "", memory_id := none, limit := 0 }
      { memory_id := "s1", instruction := "v", prev_sql := none }).2
      respEditV (sessionSet storeOne "s1" stEditV) kEditOk rfl⟩

/-- C4: with a stored non-blank sql and a deterministic executor, two
reexecute calls in immediate succession both succeed with identical
(columns, rows), and the final store is the original one — the stored
session (its sql and cached columns/rows included) is untouched. -/
theorem chembl_reexecute_idempotent (c : Collab) (store : Store)
    (req : ReexecRequest) (st : SessionState)
    (cr : List String × List (List String))
    (hc : c.check_model_running = Except.ok ())
    (h1 : sessionGet store req.memory_id = some st)
    (h2 : isBlank st.sql = false)
    (hx : c.execute st.sql req.limit = Except.ok cr) :
    reexecTwice c store req = some (cr, cr, store) := by
  have hr := route_reexec_ok c store req st cr hc h1 h2 hx
  unfold reexecTwice
  simp [hr]

/-- Witness for C4: two reexecutions of the stored session "s1". -/
theorem chembl_reexecute_idempotent_witness :
    sessionGet storeOne "s1" = some stStored ∧
    isBlank stStored.sql = false ∧
    reexecTwice cTest storeOne { memory_id := "s1", limit := 7 } =
      some ((["a", "b"], [["1", "2"]]), (["a", "b"], [["1", "2"]]),
        storeOne) :=
  ⟨rfl, rfl,
    chembl_reexecute_idempotent cTest storeOne
      { memory_id := "s1", limit := 7 } stStored
      (["a", "b"], [["1", "2"]]) rfl rfl rfl rfl⟩

/-- C5: after a successful `chembl_apply_edit`, `sessionGet` returns the
state produced by that edit; whenever the pre-edit stored sql differs
from the edited sql, the pre-edit state is no longer what `sessionGet`
returns. -/
theorem chembl_edit_overwrites (c : Collab) (store : Store)
    (id instruction : String) (prevSql : Option String)
    (st : SessionState) (store' : Store)
    (h : (chembl_apply_edit c store id instruction prevSql).1 =
      Except.ok (st, store')) :
    sessionGet store' id = some st ∧
    ∀ old : SessionState, sessionGet store id = some old →
      ¬ old.sql = st.sql → ¬ sessionGet store' id = some old := by
  obtain ⟨base, hb, hst, hstore⟩ := chembl_apply_edit_ok_shape c store id
    instruction prevSql st store' h
  subst hstore
  constructor
  · exact sessionGet_sessionSet_self store id st
  · intro old hold hneq hcontra
    rw [sessionGet_sessionSet_self store id st] at hcontra
    have heq : st = old := Option.some.inj hcontra
    exact hneq (by rw [← heq])

/-- Witness for C5: a concrete edit of the stored session "s1". -/
theorem chembl_edit_overwrites_witness :
    (chembl_apply_edit cTest storeOne "s1" "v" none).1 =
      Except.ok (stEditV, sessionSet storeOne "s1" stEditV) ∧
    sessionGet (sessionSet storeOne "s1" stEditV) "s1" = some stEditV :=
  ⟨rfl,
    (chembl_edit_overwrites cTest storeOne "s1" "v" none stEditV
      (sessionSet storeOne "s1" stEditV) rfl).1⟩

/-- C6: the edit flow resolves its base sql in order — the session's
stored sql when the id is known and non-empty, otherwise the
caller-supplied prev_sql; when neither is available the call fails with
`noBaseSql`, a condition distinct from `unknownSession`. -/
theorem chembl_edit_base_resolution (c : Collab) (store : Store)
    (id instruction : String) (prevSql : Option String) :
    (∀ st : SessionState, sessionGet store id = some st → ¬ st.sql = "" →
      resolveBaseSql store id prevSql = some st.sql) ∧
    (truthy ((sessionGet store id).map SessionState.sql) = none →
      resolveBaseSql store id prevSql = truthy prevSql) ∧
    (resolveBaseSql store id prevSql = none →
      (chembl_apply_edit c store id instruction prevSql).1 =
        Except.error AgentError.noBaseSql) ∧
    AgentError.noBaseSql ≠ AgentError.unknownSession := by
  refine ⟨?_, ?_, ?_, by decide⟩
  · intro st hst hne
    unfold resolveBaseSql
    rw [hst]
    simp [truthy, hne]
  · intro hn
    unfold resolveBaseSql
    rw [hn]
  · intro hn
    unfold chembl_apply_edit
    rw [hn]

/-- Witness for C6: an edit with no session and no prev_sql fails with
`noBaseSql`. -/
theorem chembl_edit_base_resolution_witness :
    resolveBaseSql emptyStore "nope" none = none ∧
    (chembl_apply_edit cTest emptyStore "nope" "i" none).1 =
      Except.error AgentError.noBaseSql :=
  ⟨rfl,
    (chembl_edit_base_resolution cTest emptyStore "nope" "i"
      none).2.2.1 rfl⟩

/-- C7: reexecuting a never-stored session identifier fails with
`unknownSession` (mapped by the HTTP layer to a client error) and
executes no SQL. -/
theorem chembl_reexecute_unknown_session (c : Collab) (store : Store)
    (req : ReexecRequest)
    (hc : c.check_model_running = Except.ok ())
    (h : sessionGet store req.memory_id = none) :
    (route_chembl_reexecute c store req).1 =
      Except.error AgentError.unknownSession ∧
    (route_chembl_reexecute c store req).2.execute = 0 := by
  unfold route_chembl_reexecute
  simp [hc, h]

/-- Witness for C7: reexecuting against the empty store. -/
theorem chembl_reexecute_unknown_session_witness :
    sessionGet emptyStore "never-seen-id" = none ∧
    (route_chembl_reexecute cTest emptyStore
      { memory_id := "never-seen-id", limit := 10 }).1 =
      Except.error AgentError.unknownSession :=
  ⟨rfl,
    (chembl_reexecute_unknown_session cTest emptyStore
      { memory_id := "never-seen-id", limit := 10 } rfl rfl).1⟩

/-- C8: reexecuting a session whose stored sql is empty fails with
`noStoredSql` and executes no SQL. -/
theorem chembl_reexecute_no_stored_sql (c : Collab) (store : Store)
    (req : ReexecRequest) (st : SessionState)
    (hc : c.check_model_running = Except.ok ())
    (h1 : sessionGet store req.memory_id = some st)
    (h2 : st.sql = "") :
    (route_chembl_reexecute c store req).1 =
      Except.error AgentError.noStoredSql ∧
    (route_chembl_reexecute c store req).2.execute = 0 := by
  have hb : isBlank st.sql = true := by rw [h2]; rfl
  unfold route_chembl_reexecute
  simp [hc, h1, hb]

/-- Witness for C8: reexecuting the stored no-context session "s2",
whose sql is empty. -/
theorem chembl_reexecute_no_stored_sql_witness :
    sessionGet storeNoSql "s2" = some stNoSql ∧
    stNoSql.sql = "" ∧
    (route_chembl_reexecute cTest storeNoSql
      { memory_id := "s2", limit := 10 }).1 =
      Except.error AgentError.noStoredSql :=
  ⟨rfl, rfl,
    (chembl_reexecute_no_stored_sql cTest storeNoSql
      { memory_id := "s2", limit := 10 } stNoSql rfl rfl rfl).1⟩

/-- C9: the run route invokes the pipeline with the fixed row limit 100 —
its result is independent of the caller-supplied limit and equals the
pipeline output at limit 100 — while the reexecute route passes the
caller's limit through to the executor. -/
theorem chembl_limit_policy (c : Collab) (store : Store) (prompt : String)
    (mid : Option String) (l1 l2 : Nat) (rreq : ReexecRequest)
    (st : SessionState) (cr : List String × List (List String))
    (hc : c.check_model_running = Except.ok ())
    (h1 : sessionGet store rreq.memory_id = some st)
    (h2 : isBlank st.sql = false)
    (hx : c.execute st.sql rreq.limit = Except.ok cr) :
    route_chembl_run c store
      { prompt := prompt, memory_id := mid, limit := l1 } =
    route_chembl_run c store
      { prompt := prompt, memory_id := mid, limit := l2 } ∧
    (route_chembl_run c store
      { prompt := prompt, memory_id := mid, limit := l1 }).1.1.rows =
      (run_chembl_full c prompt 100).1.rows ∧
    (route_chembl_run c store
      { prompt := prompt, memory_id := mid, limit := l1 }).1.1.retries =
      (run_chembl_full c prompt 100).1.retries ∧
    (route_chembl_reexecute c store rreq).1 = Except.ok (cr, store) := by
  refine ⟨rfl, rfl, rfl, ?_⟩
  rw [route_reexec_ok c store rreq st cr hc h1 h2 hx]

/-- Witness for C9: a reexecution whose caller limit 7 reaches the
executor. -/
theorem chembl_limit_policy_witness :
    cTest.execute stStored.sql 7 = Except.ok (["a", "b"], [["1", "2"]]) ∧
    (route_chembl_reexecute cTest storeOne
      { memory_id := "s1", limit := 7 }).1 =
      Except.ok ((["a", "b"], [["1", "2"]]), storeOne) :=
  ⟨rfl,
    (chembl_limit_policy cTest storeOne "q" none 1 2
      { memory_id := "s1", limit := 7 } stStored
      (["a", "b"], [["1", "2"]]) rfl rfl rfl rfl).2.2.2⟩

/-- C10: the run route writes the Session Store only when the request
carries a non-empty memory_id; the written state carries the request's
prompt, other keys are untouched, and with an absent or empty memory_id
the store is left unchanged. -/
theorem chembl_run_store_frame (c : Collab) (store : Store)
    (req : RunRequest) :
    (truthy req.memory_id = none →
      (route_chembl_run c store req).1.2 = store) ∧
    ∀ mid, truthy req.memory_id = some mid →
      sessionGet (route_chembl_run c store req).1.2 mid =
        some { (run_chembl_full c req.prompt 100).1 with
               prompt := req.prompt } ∧
      ∀ j, ¬ j = mid → (route_chembl_run c store req).1.2 j = store j := by
  constructor
  · intro h
    unfold route_chembl_run
    rw [h]
  · intro mid h
    unfold route_chembl_run
    rw [h]
    constructor
    · exact sessionGet_sessionSet_self store mid _
    · intro j hj
      exact sessionGet_sessionSet_other store mid j _ hj

/-- Witness for C10: a run with memory_id "m1" stores the produced state
(with the prompt attached) under "m1". -/
theorem chembl_run_store_frame_witness :
    truthy (some "m1") = some "m1" ∧
    sessionGet (route_chembl_run cTest emptyStore
      { prompt := "list drugs", memory_id := some "m1",
        limit := 42 }).1.2 "m1" =
      some { (run_chembl_full cTest "list drugs" 100).1 with
             prompt := "list drugs" } :=
  ⟨rfl,
    ((chembl_run_store_frame cTest emptyStore
      { prompt := "list drugs", memory_id := some "m1",
        limit := 42 }).2 "m1" rfl).1⟩

end ChemblAgent
